import Mathlib

/-!
Shallow embedding of `verifier.cpp`, a benchmarking harness that times
sign/verify operations of eight signature schemes and emits CSV lines.

External collaborators (the Crypto++ signature primitives, the AES-OFB
keystream generator, the chrono clocks, and `atoi`) are modelled as
parameters/oracles; everything the harness itself computes (parameter
tables, the security-level scan, description/CSV line assembly, the
emission and abort order, the driver loop, and `main`'s control flow)
is embedded as executable Lean definitions.
-/

namespace Verifier

/-- verifier.cpp line 51: `#define NUMBER_OF_SECURITY_LENGTHS 5`. -/
def NUMBER_OF_SECURITY_LENGTHS : Nat := 5

/-- verifier.cpp line 52. -/
def securityLevels : List Nat := [80, 112, 128, 192, 256]

/-- verifier.cpp line 53. -/
def finiteFieldSizes : List Nat := [1024, 2048, 3072, 7680, 15360]

/-- verifier.cpp line 54. -/
def finiteFieldSubgroupSizes : List Nat := [160, 224, 256, 384, 511]

/-- verifier.cpp line 55. -/
def factorizationGroupSizes : List Nat := [1024, 2048, 3072, 7680, 15360]

/-- verifier.cpp line 56. -/
def ellipticCurveSizes : List Nat := [160, 224, 256, 384, 512]

/-- verifier.cpp lines 65–76: builds
`<algorithmName>,<securityLevel>,<keyLength>,<inputLength>` by successive
appends, numbers rendered in decimal (`std::to_string`). All integers that
reach this function in the harness are non-negative, hence `Nat`. -/
def generateDetailedDescription (algorithmName : String)
    (securityLevel : Nat) (keyLength : Nat) (inputLength : Nat) : String :=
  let fullDescription := ""
  let fullDescription := fullDescription.append algorithmName
  let fullDescription := fullDescription.append ","
  let fullDescription := fullDescription.append (Nat.repr securityLevel)
  let fullDescription := fullDescription.append ","
  let fullDescription := fullDescription.append (Nat.repr keyLength)
  let fullDescription := fullDescription.append ","
  let fullDescription := fullDescription.append (Nat.repr inputLength)
  fullDescription

/-- verifier.cpp lines 94–103: `<description>,<operation>,<delta>`;
`delta` is a `size_t` nanosecond count, hence `Nat`. -/
def generateCSVString (description : String) (operation : String)
    (delta : Nat) : String :=
  let csv := ""
  let csv := csv.append description
  let csv := csv.append ","
  let csv := csv.append operation
  let csv := csv.append ","
  let csv := csv.append (Nat.repr delta)
  csv

/-- Loop body of verifier.cpp lines 323–329: `securityIndex` stays 0 unless an
exact match `securityLevels[i] == securityLevel` is found; the first match
wins (`break`). The scanned value comes from `atoi` and may be any integer,
hence the `Int` argument. -/
def indexForLoop (securityLevel : Int) : List Nat → Nat
  | [] => 0
  | i :: rest =>
    if (securityLevels.getD i 0 : Int) = securityLevel then i
    else indexForLoop securityLevel rest

/-- verifier.cpp lines 323–329: linear scan over indices `0..4`. -/
def indexFor (securityLevel : Int) : Nat :=
  indexForLoop securityLevel (List.range NUMBER_OF_SECURITY_LENGTHS)

/-- CSV field decomposition: split a character list at commas (the harness
never quotes or escapes fields). `acc` holds the current field reversed. -/
def splitCommasAux : List Char → List Char → List String
  | [], acc => [(acc.reverse).asString]
  | c :: cs, acc =>
    if c = ',' then (acc.reverse).asString :: splitCommasAux cs []
    else splitCommasAux cs (c :: acc)

/-- The fields of a CSV line. -/
def csvFields (s : String) : List String :=
  splitCommasAux s.data []

/-- A string that contains no comma, i.e. a single CSV field. -/
def commaFree (s : String) : Prop :=
  ∀ c ∈ s.data, c ≠ ','

instance (s : String) : Decidable (commaFree s) := by
  unfold commaFree; infer_instance

theorem splitCommasAux_no_comma (xs : List Char) (acc : List Char)
    (h : ∀ c ∈ xs, c ≠ ',') :
    splitCommasAux xs acc = [(acc.reverse ++ xs).asString] := by
  induction xs generalizing acc with
  | nil => simp [splitCommasAux]
  | cons c cs ih =>
    have hc : ¬(c = ',') := h c (by simp)
    have hcs : ∀ d ∈ cs, d ≠ ',' := fun d hd => h d (by simp [hd])
    simp [splitCommasAux, hc, ih (c :: acc) hcs]

theorem splitCommasAux_append_comma (xs ys acc : List Char)
    (h : ∀ c ∈ xs, c ≠ ',') :
    splitCommasAux (xs ++ ',' :: ys) acc =
      (acc.reverse ++ xs).asString :: splitCommasAux ys [] := by
  induction xs generalizing acc with
  | nil => simp [splitCommasAux]
  | cons c cs ih =>
    have hc : ¬(c = ',') := h c (by simp)
    have hcs : ∀ d ∈ cs, d ≠ ',' := fun d hd => h d (by simp [hd])
    simp [splitCommasAux, hc, ih (c :: acc) hcs]

theorem csvFields_of_commaFree (s : String) (h : commaFree s) :
    csvFields s = [s] := by
  unfold csvFields
  rw [splitCommasAux_no_comma s.data [] h]
  rfl

theorem csvFields_cons_of_commaFree (s t : String) (h : commaFree s) :
    csvFields (s ++ "," ++ t) = s :: csvFields t := by
  unfold csvFields
  have hdata : (s ++ "," ++ t).data = s.data ++ ',' :: t.data := by
    simp [String.data_append]
  rw [hdata, splitCommasAux_append_comma s.data t.data [] h]
  rfl

theorem digitChar_ne_comma (n : Nat) : Nat.digitChar n ≠ ',' := by
  rcases Nat.lt_or_ge n 16 with h | h
  · interval_cases n <;> decide
  · have e : Nat.digitChar n = '*' := by
      have u0 : ¬ n = 0 := by omega
      have u1 : ¬ n = 1 := by omega
      have u2 : ¬ n = 2 := by omega
      have u3 : ¬ n = 3 := by omega
      have u4 : ¬ n = 4 := by omega
      have u5 : ¬ n = 5 := by omega
      have u6 : ¬ n = 6 := by omega
      have u7 : ¬ n = 7 := by omega
      have u8 : ¬ n = 8 := by omega
      have u9 : ¬ n = 9 := by omega
      have u10 : ¬ n = 10 := by omega
      have u11 : ¬ n = 11 := by omega
      have u12 : ¬ n = 12 := by omega
      have u13 : ¬ n = 13 := by omega
      have u14 : ¬ n = 14 := by omega
      have u15 : ¬ n = 15 := by omega
      simp [Nat.digitChar, u0, u1, u2, u3, u4, u5, u6, u7, u8, u9, u10,
        u11, u12, u13, u14, u15]
    rw [e]; decide

theorem toDigitsCore_ne_comma (fuel : Nat) :
    ∀ (n : Nat) (acc : List Char), (∀ c ∈ acc, c ≠ ',') →
      ∀ c ∈ Nat.toDigitsCore 10 fuel n acc, c ≠ ',' := by
  induction fuel with
  | zero => intro n acc hacc; simpa [Nat.toDigitsCore] using hacc
  | succ fuel ih =>
    intro n acc hacc
    have hcons : ∀ c ∈ Nat.digitChar (n % 10) :: acc, c ≠ ',' := by
      intro c hc
      rcases List.mem_cons.mp hc with h1 | h2
      · exact h1 ▸ digitChar_ne_comma (n % 10)
      · exact hacc c h2
    intro c hc
    simp only [Nat.toDigitsCore] at hc
    by_cases h10 : n / 10 = 0
    · rw [if_pos h10] at hc
      exact hcons c hc
    · rw [if_neg h10] at hc
      exact ih (n / 10) (Nat.digitChar (n % 10) :: acc) hcons c hc

theorem commaFree_repr (n : Nat) : commaFree (Nat.repr n) := by
  intro c hc
  exact toDigitsCore_ne_comma (n + 1) n [] (by simp) c hc

/-- One emitted measurement: the argument triple the harness passes to
`generateCSVString` at verifier.cpp lines 134 and 141. -/
structure MeasurementRecord where
  description : String
  operation : String
  elapsedNanoseconds : Nat
deriving DecidableEq, Repr

/-- Render a record as the CSV line actually printed. -/
def emittedLine (r : MeasurementRecord) : String :=
  generateCSVString r.description r.operation r.elapsedNanoseconds

/-- The CSV lines printed for a list of records, in order. -/
def emittedLines (rs : List MeasurementRecord) : List String :=
  rs.map emittedLine

/-- verifier.cpp lines 119–145. The Crypto++ key-material validation results
(`keysValid`, the conjunction of the two `Validate` calls at line 124) and the
two chrono timings are environment inputs, passed as parameters. Control flow
embedded from the source: if validation fails, the `assert` at line 125 aborts
before anything is printed; otherwise the sign CSV line (line 134) and then the
verify CSV line (line 141) are printed unconditionally, and only afterwards
does the `assert` at line 143 abort when `VerifyMessage` returned false
(`verifyOk`). Result: (records printed, whether the process aborted).
Asserts are modelled as active (debug semantics). -/
def ProfileSignatureValidate (keysValid : Bool) (verifyOk : Bool)
    (description : String) (signNs : Nat) (verifyNs : Nat) :
    List MeasurementRecord × Bool :=
  if keysValid = false then ([], true)
  else
    ([{ description := description, operation := "sign",
        elapsedNanoseconds := signNs },
      { description := description, operation := "verify",
        elapsedNanoseconds := verifyNs }],
     verifyOk = false)

/-- The hardcoded ECDSA domain data of verifier.cpp lines 250–260: the GF(2^n)
trinomial moduli arguments, curve coefficients a and b (byte arrays), the
encoded base point, the group order `n` and the private scalar `d`. -/
structure ECDomain where
  fieldPolyArgs : Nat × Nat × Nat
  coeffA : List Nat
  coeffB : List Nat
  basePointEncoding : List Nat
  groupOrder : Nat
  privateScalar : Nat
deriving DecidableEq, Repr

/-- The constant domain-parameter set from "Sample Test Vectors for P1363"
(verifier.cpp lines 249–260), written out byte for byte. -/
def ecdsaDomain : ECDomain :=
  { fieldPolyArgs := (191, 9, 0)
    coeffA := [0x28, 0x66, 0x53, 0x7B, 0x67, 0x67, 0x52, 0x63,
               0x6A, 0x68, 0xF5, 0x65, 0x54, 0xE1, 0x26, 0x40,
               0x27, 0x6B, 0x64, 0x9E, 0xF7, 0x52, 0x62, 0x67]
    coeffB := [0x2E, 0x45, 0xEF, 0x57, 0x1F, 0x00, 0x78, 0x6F,
               0x67, 0xB0, 0x08, 0x1B, 0x94, 0x95, 0xA3, 0xD9,
               0x54, 0x62, 0xF5, 0xDE, 0x0A, 0xA1, 0x85, 0xEC]
    basePointEncoding :=
      [0x04, 0x36, 0xB3, 0xDA, 0xF8, 0xA2, 0x32, 0x06, 0xF9,
       0xC4, 0xF2, 0x99, 0xD7, 0xB2, 0x1A, 0x9C, 0x36, 0x91,
       0x37, 0xF2, 0xC8, 0x4A, 0xE1, 0xAA, 0x0D, 0x76, 0x5B,
       0xE7, 0x34, 0x33, 0xB3, 0xF9, 0x5E, 0x33, 0x29, 0x32,
       0xE7, 0x0E, 0xA2, 0x45, 0xCA, 0x24, 0x18, 0xEA, 0x0E,
       0xF9, 0x80, 0x18, 0xFB]
    groupOrder := 0x40000000000000000000000004a20e90c39067c893bbb9a5
    privateScalar := 0x340562e1dda332f9d2aec168249b5696ee39d0ed4d03760f }

/-- The observable outcome of one `Validate*` adapter call: the records it
printed, whether it aborted, the algorithm name and description string it
built, the table magnitude it passed to key generation (`none` for ECDSA,
whose key material is hardcoded) and, for ECDSA, the fixed domain data. -/
structure AdapterRun where
  records : List MeasurementRecord
  aborted : Bool
  algorithmName : String
  description : String
  keygenArg : Option Nat
  ecDomain : Option ECDomain
deriving DecidableEq, Repr

/-- verifier.cpp lines 147–164: description uses `factorizationGroupSizes`,
key generation (`RSASSA_PKCS1v15_MD2_Signer(GlobalRNG(), bits)`) uses
`factorizationGroupSizes`. -/
def ValidateRSA (validity : Bool × Bool) (timing : Nat × Nat)
    (inputLength : Nat) (secLevelIndex : Nat) : AdapterRun :=
  let description := generateDetailedDescription "RSA"
    (securityLevels.getD secLevelIndex 0)
    (factorizationGroupSizes.getD secLevelIndex 0) inputLength
  let r := ProfileSignatureValidate validity.1 validity.2 description
    timing.1 timing.2
  { records := r.1, aborted := r.2, algorithmName := "RSA",
    description := description,
    keygenArg := some (factorizationGroupSizes.getD secLevelIndex 0),
    ecDomain := none }

/-- verifier.cpp lines 166–178: description uses `factorizationGroupSizes`,
key generation (`NR<SHA>::Signer(GlobalRNG(), bits)`) uses
`finiteFieldSubgroupSizes`. -/
def ValidateNR (validity : Bool × Bool) (timing : Nat × Nat)
    (inputLength : Nat) (secLevelIndex : Nat) : AdapterRun :=
  let description := generateDetailedDescription "NR"
    (securityLevels.getD secLevelIndex 0)
    (factorizationGroupSizes.getD secLevelIndex 0) inputLength
  let r := ProfileSignatureValidate validity.1 validity.2 description
    timing.1 timing.2
  { records := r.1, aborted := r.2, algorithmName := "NR",
    description := description,
    keygenArg := some (finiteFieldSubgroupSizes.getD secLevelIndex 0),
    ecDomain := none }

/-- verifier.cpp lines 180–191: description uses `factorizationGroupSizes`,
key generation (`DSA::Signer(GlobalRNG(), bits)`) uses
`factorizationGroupSizes`. -/
def ValidateDSA (validity : Bool × Bool) (timing : Nat × Nat)
    (inputLength : Nat) (secLevelIndex : Nat) : AdapterRun :=
  let description := generateDetailedDescription "DSA"
    (securityLevels.getD secLevelIndex 0)
    (factorizationGroupSizes.getD secLevelIndex 0) inputLength
  let r := ProfileSignatureValidate validity.1 validity.2 description
    timing.1 timing.2
  { records := r.1, aborted := r.2, algorithmName := "DSA",
    description := description,
    keygenArg := some (factorizationGroupSizes.getD secLevelIndex 0),
    ecDomain := none }

/-- verifier.cpp lines 193–204: description and key generation
(`LUCSSA_PKCS1v15_SHA_Signer(GlobalRNG(), bits)`) both use
`factorizationGroupSizes`. -/
def ValidateLUC (validity : Bool × Bool) (timing : Nat × Nat)
    (inputLength : Nat) (secLevelIndex : Nat) : AdapterRun :=
  let description := generateDetailedDescription "LUC"
    (securityLevels.getD secLevelIndex 0)
    (factorizationGroupSizes.getD secLevelIndex 0) inputLength
  let r := ProfileSignatureValidate validity.1 validity.2 description
    timing.1 timing.2
  { records := r.1, aborted := r.2, algorithmName := "LUC",
    description := description,
    keygenArg := some (factorizationGroupSizes.getD secLevelIndex 0),
    ecDomain := none }

/-- verifier.cpp lines 206–217: description and key generation
(`LUC_HMP<SHA>::Signer(GlobalRNG(), bits)`) both use `finiteFieldSizes`. -/
def ValidateLUC_DL (validity : Bool × Bool) (timing : Nat × Nat)
    (inputLength : Nat) (secLevelIndex : Nat) : AdapterRun :=
  let description := generateDetailedDescription "LUC-DL"
    (securityLevels.getD secLevelIndex 0)
    (finiteFieldSizes.getD secLevelIndex 0) inputLength
  let r := ProfileSignatureValidate validity.1 validity.2 description
    timing.1 timing.2
  { records := r.1, aborted := r.2, algorithmName := "LUC-DL",
    description := description,
    keygenArg := some (finiteFieldSizes.getD secLevelIndex 0),
    ecDomain := none }

/-- verifier.cpp lines 219–230: description and key generation
(`RabinSS<PSSR, SHA>::Signer(GlobalRNG(), bits)`) both use
`factorizationGroupSizes`. -/
def ValidateRabin (validity : Bool × Bool) (timing : Nat × Nat)
    (inputLength : Nat) (secLevelIndex : Nat) : AdapterRun :=
  let description := generateDetailedDescription "Rabin"
    (securityLevels.getD secLevelIndex 0)
    (factorizationGroupSizes.getD secLevelIndex 0) inputLength
  let r := ProfileSignatureValidate validity.1 validity.2 description
    timing.1 timing.2
  { records := r.1, aborted := r.2, algorithmName := "Rabin",
    description := description,
    keygenArg := some (factorizationGroupSizes.getD secLevelIndex 0),
    ecDomain := none }

/-- verifier.cpp lines 232–243: description and key generation
(`RWSS<PSSR, SHA>::Signer(GlobalRNG(), bits)`) both use
`factorizationGroupSizes`. -/
def ValidateRW (validity : Bool × Bool) (timing : Nat × Nat)
    (inputLength : Nat) (secLevelIndex : Nat) : AdapterRun :=
  let description := generateDetailedDescription "RW"
    (securityLevels.getD secLevelIndex 0)
    (factorizationGroupSizes.getD secLevelIndex 0) inputLength
  let r := ProfileSignatureValidate validity.1 validity.2 description
    timing.1 timing.2
  { records := r.1, aborted := r.2, algorithmName := "RW",
    description := description,
    keygenArg := some (factorizationGroupSizes.getD secLevelIndex 0),
    ecDomain := none }

/-- verifier.cpp lines 245–268: description uses the literal key length 1;
key material is built from the hardcoded P1363 test-vector data
(`ecdsaDomain`), with no reference to the security-level tables. -/
def ValidateECDSA (validity : Bool × Bool) (timing : Nat × Nat)
    (inputLength : Nat) (secLevelIndex : Nat) : AdapterRun :=
  let description := generateDetailedDescription "ECDSA"
    (securityLevels.getD secLevelIndex 0) 1 inputLength
  let r := ProfileSignatureValidate validity.1 validity.2 description
    timing.1 timing.2
  { records := r.1, aborted := r.2, algorithmName := "ECDSA",
    description := description,
    keygenArg := none,
    ecDomain := some ecdsaDomain }

/-- The eight scheme adapters, as named in the source. -/
inductive Scheme where
  | RSA | NR | DSA | LUC | LUCDL | Rabin | RW | ECDSA
deriving DecidableEq, Repr

/-- Dispatch to the adapter embeddings. `validity` and `timing` are the
per-scheme environment oracles (key-validation outcomes and chrono timings). -/
def runAdapter (validity : Scheme → Bool × Bool) (timing : Scheme → Nat × Nat)
    (inputLength : Nat) (secLevelIndex : Nat) : Scheme → AdapterRun
  | .RSA => ValidateRSA (validity .RSA) (timing .RSA) inputLength secLevelIndex
  | .NR => ValidateNR (validity .NR) (timing .NR) inputLength secLevelIndex
  | .DSA => ValidateDSA (validity .DSA) (timing .DSA) inputLength secLevelIndex
  | .LUC => ValidateLUC (validity .LUC) (timing .LUC) inputLength secLevelIndex
  | .LUCDL =>
    ValidateLUC_DL (validity .LUCDL) (timing .LUCDL) inputLength secLevelIndex
  | .Rabin =>
    ValidateRabin (validity .Rabin) (timing .Rabin) inputLength secLevelIndex
  | .RW => ValidateRW (validity .RW) (timing .RW) inputLength secLevelIndex
  | .ECDSA =>
    ValidateECDSA (validity .ECDSA) (timing .ECDSA) inputLength secLevelIndex

/-- The fixed call order of verifier.cpp lines 284–293. -/
def schemeOrder : List Scheme :=
  [.RSA, .NR, .DSA, .LUC, .LUCDL, .Rabin, .RW, .ECDSA]

/-- Sequential execution of the adapters: an abort (failed assert) stops the
process, so later adapters do not run and their records are never printed. -/
def runAdapters (validity : Scheme → Bool × Bool)
    (timing : Scheme → Nat × Nat) (inputLength : Nat) (secLevelIndex : Nat) :
    List Scheme → List MeasurementRecord × Bool
  | [] => ([], false)
  | s :: rest =>
    let r := runAdapter validity timing inputLength secLevelIndex s
    if r.aborted then (r.records, true)
    else
      let rr := runAdapters validity timing inputLength secLevelIndex rest
      (r.records ++ rr.1, rr.2)

/-- verifier.cpp lines 284–293: run all eight adapters in declared order. -/
def ProfileSignatureSchemes (validity : Scheme → Bool × Bool)
    (timing : Scheme → Nat × Nat) (inputLength : Nat) (secLevelIndex : Nat) :
    List MeasurementRecord × Bool :=
  runAdapters validity timing inputLength secLevelIndex schemeOrder

/-- verifier.cpp lines 295–299: the three usage lines. -/
def showUsage : List String :=
  ["usage: verifier <security-level> <rng-seed>",
   "       security-level: the AES security equivalent level",
   "       rng-seed:       the seed for the global RNG"]

/-- `rngSeed.resize(16)` at verifier.cpp line 320: truncate the seed string to
16 bytes, or pad it with null bytes up to 16. The seed is a byte string. -/
def resize16 (seed : List Nat) : List Nat :=
  if 16 ≤ seed.length then seed.take 16
  else seed ++ List.replicate (16 - seed.length) 0

/-- The keystream blocks the adapters consume, in driver order: the OFB
keystream is a deterministic function of the seeded key/IV, modelled by the
`stream` oracle indexed by draw position; each scheme consumes `numDraws`
consecutive blocks, the offset advancing monotonically. -/
def drawTrace (stream : Nat → List Nat) (numDraws : Scheme → Nat) :
    List Scheme → Nat → List (List Nat)
  | [], _ => []
  | s :: rest, off =>
    ((List.range (numDraws s)).map fun j => stream (off + j)) ++
      drawTrace stream numDraws rest (off + numDraws s)

/-- The observable outcome of `main` (verifier.cpp lines 301–332): exit code,
usage lines printed, whether standard input was consumed, the key and IV the
global RNG was seeded with (`none` when seeding never happened), the draw
trace, the measurement records printed, and whether an assert aborted. -/
structure MainResult where
  exitCode : Nat
  usageLines : List String
  stdinConsumed : Bool
  rngKey : Option (List Nat)
  rngIV : Option (List Nat)
  draws : List (List Nat)
  records : List MeasurementRecord
  aborted : Bool

/-- verifier.cpp lines 301–332. `argc` is the argument count; the integer
`securityLevelArg` is `atoi(argv[1])` (command-line parsing is an external
collaborator); `rngSeedArg` is the byte string `argv[2]`; `stdinLines` are the
`getline` results, which carry no newline characters. The oracles `validity`,
`timing`, `gen` (keystream as a function of key, IV and draw index) and
`numDraws` stand for the external cryptographic and clock collaborators.
When `argc != 3`, usage is printed and the process exits with code 1 before
reading input or seeding the RNG. Otherwise the input message is the
concatenation of the stdin lines, the RNG is keyed with the resized seed used
as both key and IV, the security index is resolved by linear scan, and the
driver runs. -/
def mainRun (argc : Nat) (securityLevelArg : Int) (rngSeedArg : List Nat)
    (stdinLines : List String) (validity : Scheme → Bool × Bool)
    (timing : Scheme → Nat × Nat)
    (gen : List Nat → List Nat → Nat → List Nat)
    (numDraws : Scheme → Nat) : MainResult :=
  if argc ≠ 3 then
    { exitCode := 1, usageLines := showUsage, stdinConsumed := false,
      rngKey := none, rngIV := none, draws := [], records := [],
      aborted := false }
  else
    let fullLine := String.join stdinLines
    let inputLength := fullLine.length
    let key := resize16 rngSeedArg
    let securityIndex := indexFor securityLevelArg
    let run := ProfileSignatureSchemes validity timing inputLength
      securityIndex
    { exitCode := 0, usageLines := [], stdinConsumed := true,
      rngKey := some key, rngIV := some key,
      draws := drawTrace (gen key key) numDraws schemeOrder 0,
      records := run.1, aborted := run.2 }

/-- Refinement target that follows the spec's words for the Driver output
shape: one sign record then one verify record per scheme, schemes in the
declared order, each record carrying that adapter's description and the
corresponding timing. -/
def specDriverRecords (validity : Scheme → Bool × Bool)
    (timing : Scheme → Nat × Nat) (inputLength : Nat) (secLevelIndex : Nat) :
    List MeasurementRecord :=
  (schemeOrder.map fun s =>
    [{ description :=
         (runAdapter validity timing inputLength secLevelIndex s).description,
       operation := "sign", elapsedNanoseconds := (timing s).1 },
     { description :=
         (runAdapter validity timing inputLength secLevelIndex s).description,
       operation := "verify", elapsedNanoseconds := (timing s).2 }]).flatten

theorem append_data (s t : String) : (s.append t).data = s.data ++ t.data :=
  rfl

theorem asString_data (s : String) : s.data.asString = s :=
  rfl

theorem comma_data : ("," : String).data = [','] :=
  rfl

theorem empty_string_data : ("" : String).data = [] :=
  rfl

theorem generateDetailedDescription_data (alg : String) (l k n : Nat) :
    (generateDetailedDescription alg l k n).data =
      alg.data ++ ',' :: ((Nat.repr l).data ++ ',' ::
        ((Nat.repr k).data ++ ',' :: (Nat.repr n).data)) := by
  simp [generateDetailedDescription, append_data, comma_data,
    empty_string_data]

theorem generateCSVString_data (d op : String) (delta : Nat) :
    (generateCSVString d op delta).data =
      d.data ++ ',' :: (op.data ++ ',' :: (Nat.repr delta).data) := by
  simp [generateCSVString, append_data, comma_data, empty_string_data]

theorem csvFields_description (alg : String) (l k n : Nat)
    (h : commaFree alg) :
    csvFields (generateDetailedDescription alg l k n) =
      [alg, Nat.repr l, Nat.repr k, Nat.repr n] := by
  unfold csvFields
  rw [generateDetailedDescription_data,
    splitCommasAux_append_comma _ _ _ h,
    splitCommasAux_append_comma _ _ _ (commaFree_repr l),
    splitCommasAux_append_comma _ _ _ (commaFree_repr k),
    splitCommasAux_no_comma _ _ (commaFree_repr n)]
  simp [asString_data]

theorem csvFields_full_line (alg op : String) (l k n delta : Nat)
    (h1 : commaFree alg) (h2 : commaFree op) :
    csvFields (generateCSVString (generateDetailedDescription alg l k n)
        op delta) =
      [alg, Nat.repr l, Nat.repr k, Nat.repr n, op, Nat.repr delta] := by
  unfold csvFields
  rw [generateCSVString_data, generateDetailedDescription_data]
  simp only [List.cons_append, List.append_assoc]
  rw [splitCommasAux_append_comma _ _ _ h1,
    splitCommasAux_append_comma _ _ _ (commaFree_repr l),
    splitCommasAux_append_comma _ _ _ (commaFree_repr k),
    splitCommasAux_append_comma _ _ _ (commaFree_repr n),
    splitCommasAux_append_comma _ _ _ h2,
    splitCommasAux_no_comma _ _ (commaFree_repr delta)]
  simp [asString_data]

/-- C2: for every description, operation name and elapsed-nanoseconds value,
the emitted CSV line is `<description>,<operationName>,<elapsedNanoseconds>`;
a description is `<algorithmName>,<securityLevelBits>,<parameterMagnitude>,
<inputLength>`; hence a full line built from comma-free algorithm and
operation names decomposes into exactly those six CSV fields. -/
theorem csv_line_is_six_field_concatenation
    (description operation algorithmName : String)
    (securityLevelBits parameterMagnitude inputLength
      elapsedNanoseconds : Nat)
    (h1 : commaFree algorithmName) (h2 : commaFree operation) :
    generateCSVString description operation elapsedNanoseconds =
      description ++ "," ++ operation ++ "," ++
        Nat.repr elapsedNanoseconds ∧
    generateDetailedDescription algorithmName securityLevelBits
        parameterMagnitude inputLength =
      algorithmName ++ "," ++ Nat.repr securityLevelBits ++ "," ++
        Nat.repr parameterMagnitude ++ "," ++ Nat.repr inputLength ∧
    csvFields (generateCSVString
        (generateDetailedDescription algorithmName securityLevelBits
          parameterMagnitude inputLength) operation elapsedNanoseconds) =
      [algorithmName, Nat.repr securityLevelBits,
       Nat.repr parameterMagnitude, Nat.repr inputLength, operation,
       Nat.repr elapsedNanoseconds] :=
  ⟨rfl, rfl,
   csvFields_full_line algorithmName operation securityLevelBits
     parameterMagnitude inputLength elapsedNanoseconds h1 h2⟩

/-- Witness for `csv_line_is_six_field_concatenation` at a concrete line. -/
theorem csv_line_is_six_field_concatenation_inst :
    commaFree "RSA" ∧ commaFree "sign" ∧
    csvFields (generateCSVString
        (generateDetailedDescription "RSA" 128 3072 5) "sign" 42) =
      ["RSA", "128", "3072", "5", "sign", "42"] :=
  ⟨by decide, by decide,
   (csv_line_is_six_field_concatenation "RSA,128,3072,5" "sign" "RSA"
     128 3072 5 42 (by decide) (by decide)).2.2⟩

/-- C3: the security-level lookup scans the fixed table {80,112,128,192,256}
in order and yields the 0-based index of the first exact match — 0,1,2,3,4
for the five table values — and yields index 0 for every other integer,
signalling no error. -/
theorem indexFor_table_scan (strengthBits : Int) :
    indexFor 80 = 0 ∧ indexFor 112 = 1 ∧ indexFor 128 = 2 ∧
    indexFor 192 = 3 ∧ indexFor 256 = 4 ∧
    (strengthBits ∉ ([80, 112, 128, 192, 256] : List Int) →
      indexFor strengthBits = 0) := by
  refine ⟨by decide, by decide, by decide, by decide, by decide, ?_⟩
  intro h
  have h1 : strengthBits ≠ 80 := fun e => h (by simp [e])
  have h2 : strengthBits ≠ 112 := fun e => h (by simp [e])
  have h3 : strengthBits ≠ 128 := fun e => h (by simp [e])
  have h4 : strengthBits ≠ 192 := fun e => h (by simp [e])
  have h5 : strengthBits ≠ 256 := fun e => h (by simp [e])
  have c0 : ¬((securityLevels.getD 0 0 : Int) = strengthBits) := by
    intro e; apply h1; rw [← e]; decide
  have c1 : ¬((securityLevels.getD 1 0 : Int) = strengthBits) := by
    intro e; apply h2; rw [← e]; decide
  have c2 : ¬((securityLevels.getD 2 0 : Int) = strengthBits) := by
    intro e; apply h3; rw [← e]; decide
  have c3 : ¬((securityLevels.getD 3 0 : Int) = strengthBits) := by
    intro e; apply h4; rw [← e]; decide
  have c4 : ¬((securityLevels.getD 4 0 : Int) = strengthBits) := by
    intro e; apply h5; rw [← e]; decide
  have e5 : List.range NUMBER_OF_SECURITY_LENGTHS = [0, 1, 2, 3, 4] := by
    decide
  show indexForLoop strengthBits (List.range NUMBER_OF_SECURITY_LENGTHS) = 0
  rw [e5]
  simp only [indexForLoop]
  rw [if_neg c0, if_neg c1, if_neg c2, if_neg c3, if_neg c4]

/-- Witness for `indexFor_table_scan`: 999 is not in the table and resolves
to index 0. -/
theorem indexFor_table_scan_inst :
    ((999 : Int) ∉ ([80, 112, 128, 192, 256] : List Int)) ∧
      indexFor 999 = 0 :=
  ⟨by decide, (indexFor_table_scan 999).2.2.2.2.2 (by decide)⟩

/-- C1: every completed run (all key validations and verifications succeed)
emits exactly 16 CSV records — one sign and one verify record per scheme —
with the schemes in the fixed declared order RSA, NR, DSA, LUC, LUC-DL,
Rabin, RW, ECDSA, and the driver does not abort. -/
theorem driver_emits_sixteen_records_in_declared_order
    (validity : Scheme → Bool × Bool) (timing : Scheme → Nat × Nat)
    (inputLength secLevelIndex : Nat)
    (h : ∀ s, validity s = (true, true)) :
    (ProfileSignatureSchemes validity timing inputLength secLevelIndex).1 =
      specDriverRecords validity timing inputLength secLevelIndex ∧
    (emittedLines (ProfileSignatureSchemes validity timing inputLength
      secLevelIndex).1).length = 16 ∧
    ((ProfileSignatureSchemes validity timing inputLength
      secLevelIndex).1.map MeasurementRecord.operation) =
      ["sign", "verify", "sign", "verify", "sign", "verify", "sign",
       "verify", "sign", "verify", "sign", "verify", "sign", "verify",
       "sign", "verify"] ∧
    (schemeOrder.map fun s =>
      (runAdapter validity timing inputLength secLevelIndex
        s).algorithmName) =
      ["RSA", "NR", "DSA", "LUC", "LUC-DL", "Rabin", "RW", "ECDSA"] ∧
    (ProfileSignatureSchemes validity timing inputLength
      secLevelIndex).2 = false := by
  have hRSA := h Scheme.RSA
  have hNR := h Scheme.NR
  have hDSA := h Scheme.DSA
  have hLUC := h Scheme.LUC
  have hLUCDL := h Scheme.LUCDL
  have hRabin := h Scheme.Rabin
  have hRW := h Scheme.RW
  have hECDSA := h Scheme.ECDSA
  refine ⟨?_, ?_, ?_, ?_, ?_⟩ <;>
    simp [ProfileSignatureSchemes, runAdapters, schemeOrder, runAdapter,
      ValidateRSA, ValidateNR, ValidateDSA, ValidateLUC, ValidateLUC_DL,
      ValidateRabin, ValidateRW, ValidateECDSA, ProfileSignatureValidate,
      specDriverRecords, emittedLines, emittedLine,
      hRSA, hNR, hDSA, hLUC, hLUCDL, hRabin, hRW, hECDSA]

/-- Witness for `driver_emits_sixteen_records_in_declared_order` at
all-valid oracles and zero timings. -/
theorem driver_emits_sixteen_records_in_declared_order_inst :
    (∀ s : Scheme, (fun _ : Scheme => (true, true)) s = (true, true)) ∧
    (emittedLines (ProfileSignatureSchemes (fun _ => (true, true))
      (fun _ => (0, 0)) 0 0).1).length = 16 ∧
    (ProfileSignatureSchemes (fun _ => (true, true))
      (fun _ => (0, 0)) 0 0).2 = false :=
  ⟨fun _ => rfl,
   (driver_emits_sixteen_records_in_declared_order
     (fun _ => (true, true)) (fun _ => (0, 0)) 0 0 (fun _ => rfl)).2.1,
   (driver_emits_sixteen_records_in_declared_order
     (fun _ => (true, true)) (fun _ => (0, 0)) 0 0
     (fun _ => rfl)).2.2.2.2⟩

/-- C9: the input message is the concatenation of the stdin lines (newlines
already stripped by `getline`), and the zero-length message is accepted:
with empty input a run whose validations all succeed still completes and
yields the full 16 sign/verify records, each with inputLength field `0`. -/
theorem empty_input_accepted_full_records (securityLevelArg : Int)
    (rngSeedArg : List Nat) (validity : Scheme → Bool × Bool)
    (timing : Scheme → Nat × Nat)
    (gen : List Nat → List Nat → Nat → List Nat) (numDraws : Scheme → Nat)
    (h : ∀ s, validity s = (true, true)) :
    (∀ stdinLines : List String,
      (mainRun 3 securityLevelArg rngSeedArg stdinLines validity timing gen
        numDraws).records =
        (ProfileSignatureSchemes validity timing
          (String.join stdinLines).length
          (indexFor securityLevelArg)).1) ∧
    (mainRun 3 securityLevelArg rngSeedArg [] validity timing gen
      numDraws).records.length = 16 ∧
    (mainRun 3 securityLevelArg rngSeedArg [] validity timing gen
      numDraws).aborted = false ∧
    ∀ r ∈ (mainRun 3 securityLevelArg rngSeedArg [] validity timing gen
      numDraws).records, (csvFields r.description).getD 3 "" = "0" := by
  have hRSA := h Scheme.RSA
  have hNR := h Scheme.NR
  have hDSA := h Scheme.DSA
  have hLUC := h Scheme.LUC
  have hLUCDL := h Scheme.LUCDL
  have hRabin := h Scheme.Rabin
  have hRW := h Scheme.RW
  have hECDSA := h Scheme.ECDSA
  have f1 := fun (l k : Nat) => csvFields_description "RSA" l k 0 (by decide)
  have f2 := fun (l k : Nat) => csvFields_description "NR" l k 0 (by decide)
  have f3 := fun (l k : Nat) => csvFields_description "DSA" l k 0 (by decide)
  have f4 := fun (l k : Nat) => csvFields_description "LUC" l k 0 (by decide)
  have f5 := fun (l k : Nat) =>
    csvFields_description "LUC-DL" l k 0 (by decide)
  have f6 := fun (l k : Nat) =>
    csvFields_description "Rabin" l k 0 (by decide)
  have f7 := fun (l k : Nat) => csvFields_description "RW" l k 0 (by decide)
  have f8 := fun (l k : Nat) =>
    csvFields_description "ECDSA" l k 0 (by decide)
  have r0 : Nat.repr 0 = "0" := by decide
  have j0 : (String.join ([] : List String)).length = 0 := by decide
  refine ⟨fun stdinLines => by simp [mainRun], ?_, ?_, ?_⟩
  · simp [mainRun, ProfileSignatureSchemes, runAdapters, schemeOrder,
      runAdapter, ValidateRSA, ValidateNR, ValidateDSA, ValidateLUC,
      ValidateLUC_DL, ValidateRabin, ValidateRW, ValidateECDSA,
      ProfileSignatureValidate,
      hRSA, hNR, hDSA, hLUC, hLUCDL, hRabin, hRW, hECDSA]
  · simp [mainRun, ProfileSignatureSchemes, runAdapters, schemeOrder,
      runAdapter, ValidateRSA, ValidateNR, ValidateDSA, ValidateLUC,
      ValidateLUC_DL, ValidateRabin, ValidateRW, ValidateECDSA,
      ProfileSignatureValidate,
      hRSA, hNR, hDSA, hLUC, hLUCDL, hRabin, hRW, hECDSA]
  · simp [mainRun, ProfileSignatureSchemes, runAdapters, schemeOrder,
      runAdapter, ValidateRSA, ValidateNR, ValidateDSA, ValidateLUC,
      ValidateLUC_DL, ValidateRabin, ValidateRW, ValidateECDSA,
      ProfileSignatureValidate,
      hRSA, hNR, hDSA, hLUC, hLUCDL, hRabin, hRW, hECDSA,
      f1, f2, f3, f4, f5, f6, f7, f8, r0, j0]

/-- Witness for `empty_input_accepted_full_records`: all-valid oracles,
level 80, empty seed and empty input. -/
theorem empty_input_accepted_full_records_inst :
    (∀ s : Scheme, (fun _ : Scheme => (true, true)) s = (true, true)) ∧
    (mainRun 3 80 [] [] (fun _ => (true, true)) (fun _ => (0, 0))
      (fun _ _ _ => []) (fun _ => 0)).records.length = 16 :=
  ⟨fun _ => rfl,
   (empty_input_accepted_full_records 80 [] (fun _ => (true, true))
     (fun _ => (0, 0)) (fun _ _ _ => []) (fun _ => 0)
     (fun _ => rfl)).2.1⟩

theorem runAdapters_cons_records (validity : Scheme → Bool × Bool)
    (timing : Scheme → Nat × Nat) (inputLength secLevelIndex : Nat)
    (s : Scheme) (rest : List Scheme) :
    (runAdapters validity timing inputLength secLevelIndex
      (s :: rest)).1 =
      (runAdapter validity timing inputLength secLevelIndex s).records ++
        (if (runAdapter validity timing inputLength secLevelIndex
            s).aborted then []
         else (runAdapters validity timing inputLength secLevelIndex
           rest).1) := by
  simp only [runAdapters]
  split <;> simp_all

theorem ProfileSignatureValidate_records_of_valid (vo : Bool) (d : String)
    (a b : Nat) :
    (ProfileSignatureValidate true vo d a b).1 =
      [{ description := d, operation := "sign", elapsedNanoseconds := a },
       { description := d, operation := "verify",
         elapsedNanoseconds := b }] := by
  simp [ProfileSignatureValidate]

/-- C4: input "hello" (length 5) with security-level argument 128 resolves
to table index 2 — factorGroupSize 3072, subgroupSize 256, curveSize 256 —
and the first CSV line of the run is `RSA,128,3072,5,sign,` followed by
the decimal of the (non-negative) sign timing. -/
theorem hello_level128_first_line (rngSeedArg : List Nat)
    (validity : Scheme → Bool × Bool) (timing : Scheme → Nat × Nat)
    (gen : List Nat → List Nat → Nat → List Nat) (numDraws : Scheme → Nat)
    (h : (validity Scheme.RSA).1 = true) :
    indexFor 128 = 2 ∧
    factorizationGroupSizes.getD 2 0 = 3072 ∧
    finiteFieldSubgroupSizes.getD 2 0 = 256 ∧
    ellipticCurveSizes.getD 2 0 = 256 ∧
    (emittedLines (mainRun 3 128 rngSeedArg ["hello"] validity timing gen
      numDraws).records).headD "" =
      "RSA,128,3072,5,sign," ++ Nat.repr ((timing Scheme.RSA).1) := by
  refine ⟨by decide, by decide, by decide, by decide, ?_⟩
  have hrw : (mainRun 3 128 rngSeedArg ["hello"] validity timing gen
      numDraws).records =
      (runAdapter validity timing 5 2 Scheme.RSA).records ++
        (if (runAdapter validity timing 5 2 Scheme.RSA).aborted then []
         else (runAdapters validity timing 5 2
           [Scheme.NR, Scheme.DSA, Scheme.LUC, Scheme.LUCDL, Scheme.Rabin,
            Scheme.RW, Scheme.ECDSA]).1) := by
    show (runAdapters validity timing (String.join ["hello"]).length
      (indexFor 128) schemeOrder).1 = _
    rw [(by decide : (String.join ["hello"]).length = 5),
      (by decide : indexFor 128 = 2)]
    simp only [schemeOrder]
    rw [runAdapters_cons_records]
  have hR : (runAdapter validity timing 5 2 Scheme.RSA).records =
      [{ description := generateDetailedDescription "RSA" 128 3072 5,
         operation := "sign",
         elapsedNanoseconds := (timing Scheme.RSA).1 },
       { description := generateDetailedDescription "RSA" 128 3072 5,
         operation := "verify",
         elapsedNanoseconds := (timing Scheme.RSA).2 }] := by
    show (ProfileSignatureValidate (validity Scheme.RSA).1
      (validity Scheme.RSA).2
      (generateDetailedDescription "RSA" (securityLevels.getD 2 0)
        (factorizationGroupSizes.getD 2 0) 5)
      (timing Scheme.RSA).1 (timing Scheme.RSA).2).1 = _
    rw [h, ProfileSignatureValidate_records_of_valid]
    rfl
  rw [hrw, hR]
  rfl

/-- Witness for `hello_level128_first_line` at all-valid oracles and sign
timing 42. -/
theorem hello_level128_first_line_inst :
    ((fun _ : Scheme => ((true, true) : Bool × Bool)) Scheme.RSA).1 =
      true ∧
    (emittedLines (mainRun 3 128 [] ["hello"] (fun _ => (true, true))
      (fun _ => (42, 7)) (fun _ _ _ => []) (fun _ => 0)).records).headD
      "" = "RSA,128,3072,5,sign," ++ Nat.repr 42 :=
  ⟨rfl,
   (hello_level128_first_line [] (fun _ => (true, true))
     (fun _ => (42, 7)) (fun _ _ _ => []) (fun _ => 0) rfl).2.2.2.2⟩

/-- Counterexample to C5 as stated: the claim says key generation uses the
subgroup size for DSA and LUC-DL, but at index 2 the DSA adapter passes
3072 (the factorization-group size) and the LUC-DL adapter passes 3072
(the finite-field size) to key generation, not the subgroup size 256. -/
theorem keygen_magnitude_claim_counterexample :
    (ValidateDSA (true, true) (0, 0) 0 2).keygenArg = some 3072 ∧
    (ValidateLUC_DL (true, true) (0, 0) 0 2).keygenArg = some 3072 ∧
    finiteFieldSubgroupSizes.getD 2 0 = 256 ∧
    (ValidateDSA (true, true) (0, 0) 0 2).keygenArg ≠
      some (finiteFieldSubgroupSizes.getD 2 0) ∧
    (ValidateLUC_DL (true, true) (0, 0) 0 2).keygenArg ≠
      some (finiteFieldSubgroupSizes.getD 2 0) := by
  refine ⟨rfl, rfl, rfl, ?_, ?_⟩ <;> decide

/-- C5 amended: at every security-level index, NR key generation uses the
finite-field subgroup size; DSA key generation uses the factorization-group
size (whose table entries coincide with the finite-field sizes); LUC-DL key
generation uses the finite-field size; the factorization-based schemes RSA,
LUC, Rabin and RW use the factorization-group size; and the ECDSA adapter
uses no table magnitude at all — its key material is the fixed hardcoded
domain-parameter set. -/
theorem keygen_magnitudes_by_family (secLevelIndex inputLength : Nat)
    (v : Bool × Bool) (t : Nat × Nat) :
    (ValidateNR v t inputLength secLevelIndex).keygenArg =
      some (finiteFieldSubgroupSizes.getD secLevelIndex 0) ∧
    (ValidateDSA v t inputLength secLevelIndex).keygenArg =
      some (factorizationGroupSizes.getD secLevelIndex 0) ∧
    (ValidateLUC_DL v t inputLength secLevelIndex).keygenArg =
      some (finiteFieldSizes.getD secLevelIndex 0) ∧
    (ValidateRSA v t inputLength secLevelIndex).keygenArg =
      some (factorizationGroupSizes.getD secLevelIndex 0) ∧
    (ValidateLUC v t inputLength secLevelIndex).keygenArg =
      some (factorizationGroupSizes.getD secLevelIndex 0) ∧
    (ValidateRabin v t inputLength secLevelIndex).keygenArg =
      some (factorizationGroupSizes.getD secLevelIndex 0) ∧
    (ValidateRW v t inputLength secLevelIndex).keygenArg =
      some (factorizationGroupSizes.getD secLevelIndex 0) ∧
    (ValidateECDSA v t inputLength secLevelIndex).keygenArg = none ∧
    (ValidateECDSA v t inputLength secLevelIndex).ecDomain =
      some ecdsaDomain ∧
    factorizationGroupSizes = finiteFieldSizes :=
  ⟨rfl, rfl, rfl, rfl, rfl, rfl, rfl, rfl, rfl, rfl⟩

/-- Counterexample to C6 as stated: with valid keys, a failing verification
still emits the verify CSV record — here the record
`(description, "verify", 7)` is among the printed records even though the
run aborts. -/
theorem verify_line_emitted_on_mismatch :
    (ProfileSignatureValidate true false "RSA,80,1024,0" 3 7).2 = true ∧
    ({ description := "RSA,80,1024,0", operation := "verify",
       elapsedNanoseconds := 7 } : MeasurementRecord) ∈
      (ProfileSignatureValidate true false "RSA,80,1024,0" 3 7).1 := by
  refine ⟨rfl, ?_⟩
  decide

/-- C6 amended: on a verification mismatch the run does abort (fatal, no
recovery), but only after the verify CSV record has been emitted: whenever
key validation passed, the sign and verify records are both printed
unconditionally, the abort check coming after the verify emission. -/
theorem mismatch_aborts_after_verify_line (keysValid : Bool) (d : String)
    (signNs verifyNs : Nat) :
    (ProfileSignatureValidate keysValid false d signNs verifyNs).2 =
      true ∧
    (keysValid = true →
      (ProfileSignatureValidate keysValid false d signNs verifyNs).1 =
        [{ description := d, operation := "sign",
           elapsedNanoseconds := signNs },
         { description := d, operation := "verify",
           elapsedNanoseconds := verifyNs }]) := by
  cases keysValid <;> simp [ProfileSignatureValidate]

/-- Witness for `mismatch_aborts_after_verify_line` with valid keys. -/
theorem mismatch_aborts_after_verify_line_inst :
    (true = true) ∧
    (ProfileSignatureValidate true false "d" 1 2).2 = true ∧
    (ProfileSignatureValidate true false "d" 1 2).1 =
      [{ description := "d", operation := "sign",
         elapsedNanoseconds := 1 },
       { description := "d", operation := "verify",
         elapsedNanoseconds := 2 }] :=
  ⟨rfl, (mismatch_aborts_after_verify_line true "d" 1 2).1,
   (mismatch_aborts_after_verify_line true "d" 1 2).2 rfl⟩

/-- C7: with an argument count other than 3, the program prints the usage
message and exits with code 1 doing no further work: stdin is not read, the
RNG is never seeded, no keystream block is drawn and no CSV record is
emitted. -/
theorem wrong_arg_count_prints_usage_and_exits (argc : Nat)
    (securityLevelArg : Int) (rngSeedArg : List Nat)
    (stdinLines : List String) (validity : Scheme → Bool × Bool)
    (timing : Scheme → Nat × Nat)
    (gen : List Nat → List Nat → Nat → List Nat) (numDraws : Scheme → Nat)
    (h : argc ≠ 3) :
    mainRun argc securityLevelArg rngSeedArg stdinLines validity timing
      gen numDraws =
      { exitCode := 1, usageLines := showUsage, stdinConsumed := false,
        rngKey := none, rngIV := none, draws := [], records := [],
        aborted := false } := by
  simp [mainRun, h]

/-- Witness for `wrong_arg_count_prints_usage_and_exits` at argc 2. -/
theorem wrong_arg_count_prints_usage_and_exits_inst :
    (2 ≠ 3) ∧
    mainRun 2 80 [] [] (fun _ => (true, true)) (fun _ => (0, 0))
      (fun _ _ _ => []) (fun _ => 0) =
      { exitCode := 1, usageLines := showUsage, stdinConsumed := false,
        rngKey := none, rngIV := none, draws := [], records := [],
        aborted := false } :=
  ⟨by decide,
   wrong_arg_count_prints_usage_and_exits 2 80 [] []
     (fun _ => (true, true)) (fun _ => (0, 0)) (fun _ _ _ => [])
     (fun _ => 0) (by decide)⟩

theorem resize16_length (seed : List Nat) : (resize16 seed).length = 16 := by
  unfold resize16
  split
  · simp [List.length_take]
    omega
  · simp
    omega

theorem strip_timing_ProfileSignatureValidate (kv vo : Bool) (d : String)
    (a b a2 b2 : Nat) :
    (ProfileSignatureValidate kv vo d a b).1.map
        (fun r => (r.description, r.operation)) =
      (ProfileSignatureValidate kv vo d a2 b2).1.map
        (fun r => (r.description, r.operation)) ∧
    (ProfileSignatureValidate kv vo d a b).2 =
      (ProfileSignatureValidate kv vo d a2 b2).2 := by
  cases kv <;> simp [ProfileSignatureValidate]

theorem strip_timing_runAdapter (validity : Scheme → Bool × Bool)
    (t1 t2 : Scheme → Nat × Nat) (inputLength secLevelIndex : Nat)
    (s : Scheme) :
    (runAdapter validity t1 inputLength secLevelIndex s).records.map
        (fun r => (r.description, r.operation)) =
      (runAdapter validity t2 inputLength secLevelIndex s).records.map
        (fun r => (r.description, r.operation)) ∧
    (runAdapter validity t1 inputLength secLevelIndex s).aborted =
      (runAdapter validity t2 inputLength secLevelIndex s).aborted := by
  cases s <;>
    exact strip_timing_ProfileSignatureValidate _ _ _ _ _ _ _

theorem strip_timing_runAdapters (validity : Scheme → Bool × Bool)
    (t1 t2 : Scheme → Nat × Nat) (inputLength secLevelIndex : Nat) :
    ∀ ss : List Scheme,
      (runAdapters validity t1 inputLength secLevelIndex ss).1.map
          (fun r => (r.description, r.operation)) =
        (runAdapters validity t2 inputLength secLevelIndex ss).1.map
          (fun r => (r.description, r.operation)) ∧
      (runAdapters validity t1 inputLength secLevelIndex ss).2 =
        (runAdapters validity t2 inputLength secLevelIndex ss).2 := by
  intro ss
  induction ss with
  | nil => simp [runAdapters]
  | cons s rest ih =>
    obtain ⟨hrec, hab⟩ :=
      strip_timing_runAdapter validity t1 t2 inputLength secLevelIndex s
    obtain ⟨ihrec, ihab⟩ := ih
    simp only [runAdapters]
    rw [hab]
    cases habv : (runAdapter validity t2 inputLength secLevelIndex
      s).aborted
    · simp [habv, hrec, ihrec, ihab]
    · simp [habv, hrec]

/-- C8: two runs with the same seed bytes, the same security level and the
same input are deterministic up to wall-clock timings: both seed the RNG
with the identical 16-byte key and IV (the resized seed used for both),
consume the identical keystream draw trace in the identical order, and
agree on every CSV field except elapsedNanoseconds (all description and
operation fields coincide), as well as on whether the run aborts. -/
theorem same_seed_same_input_deterministic_up_to_timing
    (securityLevelArg : Int) (rngSeedArg : List Nat)
    (stdinLines : List String) (validity : Scheme → Bool × Bool)
    (t1 t2 : Scheme → Nat × Nat)
    (gen : List Nat → List Nat → Nat → List Nat)
    (numDraws : Scheme → Nat) :
    (mainRun 3 securityLevelArg rngSeedArg stdinLines validity t1 gen
      numDraws).rngKey = some (resize16 rngSeedArg) ∧
    (mainRun 3 securityLevelArg rngSeedArg stdinLines validity t1 gen
      numDraws).rngIV = some (resize16 rngSeedArg) ∧
    (mainRun 3 securityLevelArg rngSeedArg stdinLines validity t2 gen
      numDraws).rngKey =
      (mainRun 3 securityLevelArg rngSeedArg stdinLines validity t1 gen
        numDraws).rngKey ∧
    (mainRun 3 securityLevelArg rngSeedArg stdinLines validity t2 gen
      numDraws).rngIV =
      (mainRun 3 securityLevelArg rngSeedArg stdinLines validity t1 gen
        numDraws).rngIV ∧
    (resize16 rngSeedArg).length = 16 ∧
    (mainRun 3 securityLevelArg rngSeedArg stdinLines validity t1 gen
      numDraws).draws =
      (mainRun 3 securityLevelArg rngSeedArg stdinLines validity t2 gen
        numDraws).draws ∧
    (mainRun 3 securityLevelArg rngSeedArg stdinLines validity t1 gen
      numDraws).records.map (fun r => (r.description, r.operation)) =
      (mainRun 3 securityLevelArg rngSeedArg stdinLines validity t2 gen
        numDraws).records.map (fun r => (r.description, r.operation)) ∧
    (mainRun 3 securityLevelArg rngSeedArg stdinLines validity t1 gen
      numDraws).aborted =
      (mainRun 3 securityLevelArg rngSeedArg stdinLines validity t2 gen
        numDraws).aborted := by
  obtain ⟨hrec, hab⟩ := strip_timing_runAdapters validity t1 t2
    (String.join stdinLines).length (indexFor securityLevelArg)
    schemeOrder
  exact ⟨by simp [mainRun], by simp [mainRun], by simp [mainRun],
    by simp [mainRun], resize16_length rngSeedArg, by simp [mainRun],
    by simpa [mainRun, ProfileSignatureSchemes] using hrec,
    by simpa [mainRun, ProfileSignatureSchemes] using hab⟩

/-- C10: for every security-level index, the ECDSA description reports the
constant 1 as its parameterMagnitude (third CSV field) while the
securityLevelBits field still reports the chosen level's strength bits;
both emitted ECDSA CSV lines carry those fields; and the adapter's key
material is the fixed hardcoded domain-parameter set, independent of the
index (no table magnitude is passed to key generation). -/
theorem ecdsa_reports_magnitude_one (secLevelIndex inputLength : Nat)
    (v : Bool × Bool) (t : Nat × Nat) :
    (ValidateECDSA v t inputLength secLevelIndex).description =
      generateDetailedDescription "ECDSA"
        (securityLevels.getD secLevelIndex 0) 1 inputLength ∧
    csvFields (ValidateECDSA v t inputLength secLevelIndex).description =
      ["ECDSA", Nat.repr (securityLevels.getD secLevelIndex 0), "1",
       Nat.repr inputLength] ∧
    (∀ r ∈ (ValidateECDSA v t inputLength secLevelIndex).records,
      (csvFields (emittedLine r)).getD 2 "" = "1" ∧
      (csvFields (emittedLine r)).getD 1 "" =
        Nat.repr (securityLevels.getD secLevelIndex 0)) ∧
    (ValidateECDSA v t inputLength secLevelIndex).keygenArg = none ∧
    (ValidateECDSA v t inputLength secLevelIndex).ecDomain =
      some ecdsaDomain := by
  have r1 : Nat.repr 1 = "1" := by decide
  have fd := fun (l n : Nat) =>
    csvFields_description "ECDSA" l 1 n (by decide)
  refine ⟨rfl, by simp [ValidateECDSA, fd, r1], ?_, rfl, rfl⟩
  intro r hr
  have hrec : (ValidateECDSA v t inputLength secLevelIndex).records =
      (ProfileSignatureValidate v.1 v.2
        (generateDetailedDescription "ECDSA"
          (securityLevels.getD secLevelIndex 0) 1 inputLength)
        t.1 t.2).1 := rfl
  rw [hrec] at hr
  rcases hv : v.1 with _ | _
  · rw [hv] at hr
    simp [ProfileSignatureValidate] at hr
  · rw [hv] at hr
    rw [ProfileSignatureValidate_records_of_valid] at hr
    simp only [List.mem_cons, List.mem_singleton] at hr
    rcases hr with hr | hr | hr
    · subst hr
      have e := fun (l n ns : Nat) =>
        csvFields_full_line "ECDSA" "sign" l 1 n ns (by decide) (by decide)
      simp [emittedLine, e, r1]
    · subst hr
      have e := fun (l n ns : Nat) =>
        csvFields_full_line "ECDSA" "verify" l 1 n ns (by decide)
          (by decide)
      simp [emittedLine, e, r1]
    · simp at hr

/-- Witness for `ecdsa_reports_magnitude_one`: the sign record of a
concrete ECDSA run carries "1" as its third CSV field. -/
theorem ecdsa_reports_magnitude_one_inst :
    ({ description := generateDetailedDescription "ECDSA" 80 1 0,
       operation := "sign", elapsedNanoseconds := 7 } :
         MeasurementRecord) ∈
      (ValidateECDSA (true, true) (7, 9) 0 0).records ∧
    (csvFields (emittedLine
      ({ description := generateDetailedDescription "ECDSA" 80 1 0,
         operation := "sign", elapsedNanoseconds := 7 } :
           MeasurementRecord))).getD 2 "" = "1" :=
  ⟨by decide,
   ((ecdsa_reports_magnitude_one 0 0 (true, true) (7, 9)).2.2.1 _
     (by decide)).1⟩

end Verifier

